import Mathlib

/-!
Verification of the crime-aware routing engine in
`Backend/crime_aware_router.py` (class `CrimeAwareRouter`).

The Python code works on IEEE floats; we embed it shallowly over the exact
reals `ℝ`, translating each method into a Lean definition with the same
structure.  External effects (the crime-store query and the two street-oracle
HTTP calls) become explicit parameters: the crime snapshot is a
`List CrimePoint` and each oracle outcome is an `Option MapboxResponse`.
Python exceptions become `Except String`.
-/

open Real

namespace CrimeRouter

/-- `math.radians` : degrees to radians. -/
noncomputable def radians (x : ℝ) : ℝ := x * Real.pi / 180

/-- `math.atan2 y x`, defined from `Real.arctan` by the usual quadrant
case split (the convention Python's `math.atan2` follows, with
`atan2 0 0 = 0`). -/
noncomputable def atan2 (y x : ℝ) : ℝ :=
  if 0 < x then Real.arctan (y / x)
  else if x < 0 then
    (if 0 ≤ y then Real.arctan (y / x) + Real.pi else Real.arctan (y / x) - Real.pi)
  else
    (if 0 < y then Real.pi / 2 else if y < 0 then -(Real.pi / 2) else 0)

/-- `CrimeAwareRouter._calculate_distance` : haversine great-circle distance
in meters, Earth radius 6 371 000 m. -/
noncomputable def calculateDistance (lat1 lng1 lat2 lng2 : ℝ) : ℝ :=
  let R : ℝ := 6371000
  let lat1Rad := radians lat1
  let lat2Rad := radians lat2
  let deltaLat := radians (lat2 - lat1)
  let deltaLng := radians (lng2 - lng1)
  let a := Real.sin (deltaLat / 2) ^ 2 +
    Real.cos lat1Rad * Real.cos lat2Rad * Real.sin (deltaLng / 2) ^ 2
  let c := 2 * atan2 (Real.sqrt a) (Real.sqrt (1 - a))
  R * c

open Classical in
/-- `CrimeAwareRouter._distance_point_to_line_segment` : distance from point
`(px, py)` to the segment `(x1,y1)-(x2,y2)` in (lat, lng) degree space,
scaled by 111 000 m per degree. -/
noncomputable def distancePointToLineSegment (px py x1 y1 x2 y2 : ℝ) : ℝ :=
  let A := px - x1
  let B := py - y1
  let C := x2 - x1
  let D := y2 - y1
  let dot := A * C + B * D
  let lenSq := C * C + D * D
  if lenSq = 0 then
    Real.sqrt (A * A + B * B) * 111000
  else
    let param := dot / lenSq
    let xx := if param < 0 then x1 else if 1 < param then x2 else x1 + param * C
    let yy := if param < 0 then y1 else if 1 < param then y2 else y1 + param * D
    let dx := px - xx
    let dy := py - yy
    Real.sqrt (dx * dx + dy * dy) * 111000

/-- `self.severity_weights.get(severity, 0.5)` : the severity table from
`CrimeAwareRouter.__init__` with default 0.5 for unknown severities. -/
noncomputable def severityWeight (s : ℤ) : ℝ :=
  if s = 1 then 0.1
  else if s = 2 then 0.2
  else if s = 3 then 0.3
  else if s = 4 then 0.4
  else if s = 5 then 0.5
  else if s = 6 then 0.7
  else if s = 7 then 0.8
  else if s = 8 then 0.9
  else if s = 9 then 1.0
  else if s = 10 then 1.0
  else 0.5

/-- `self.critical_hours` from `CrimeAwareRouter.__init__`. -/
def criticalHours : ℝ := 24

/-- `self.crime_influence_radius` from `CrimeAwareRouter.__init__` (meters). -/
def crimeInfluenceRadius : ℝ := 100

open Classical in
/-- `CrimeAwareRouter._calculate_time_decay` : step time-decay factor from
hours since the crime. -/
noncomputable def calculateTimeDecay (hoursAgo : ℝ) : ℝ :=
  if hoursAgo ≤ criticalHours then 10000.0
  else if hoursAgo ≤ 7 * 24 then 10.0
  else if hoursAgo ≤ 30 * 24 then 1.0
  else if hoursAgo ≤ 90 * 24 then 0.3
  else 0.1

/-- The `CrimePoint` dataclass.  The occurrence instant enters the router
only through the derived `hours_ago`, so it is not repeated here;
`distance_to_route` is the transient per-query field (default 0). -/
structure CrimePoint where
  lat : ℝ
  lng : ℝ
  severity : ℤ
  crimeType : String
  hoursAgo : ℝ
  distanceToRoute : ℝ := 0

open Classical in
/-- `CrimeAwareRouter._get_crimes_near_segment` : the crimes whose
point-to-segment distance is at most the influence radius, with that
distance recorded on the returned `distanceToRoute` field (the Python
method mutates the shared `CrimePoint`; functionally, it returns an
updated copy). -/
noncomputable def getCrimesNearSegment (startLat startLng endLat endLng : ℝ)
    (crimeData : List CrimePoint) : List CrimePoint :=
  crimeData.filterMap fun crime =>
    let distance := distancePointToLineSegment crime.lat crime.lng
      startLat startLng endLat endLng
    if distance ≤ crimeInfluenceRadius then
      some { crime with distanceToRoute := distance }
    else
      none

open Classical in
/-- `CrimeAwareRouter._calculate_segment_crime_penalty` : accumulated penalty
over the crimes near the segment; 24-hour crimes are scaled by the
segment's haversine length times 1000, older ones by 100. -/
noncomputable def calculateSegmentCrimePenalty (startLat startLng endLat endLng : ℝ)
    (crimeData : List CrimePoint) : ℝ :=
  let segmentDistance := calculateDistance startLat startLng endLat endLng
  let segmentCrimes := getCrimesNearSegment startLat startLng endLat endLng crimeData
  (segmentCrimes.map fun crime =>
    let timeFactor := calculateTimeDecay crime.hoursAgo
    let distanceFactor := max 0 (1 - crime.distanceToRoute / crimeInfluenceRadius)
    let severityFactor := severityWeight crime.severity
    let basePenalty := timeFactor * distanceFactor * severityFactor
    if crime.hoursAgo ≤ criticalHours then
      basePenalty * segmentDistance * 1000
    else
      basePenalty * 100).sum

/-- The specification's segment penalty (§4.5 of the spec, used verbatim for
claim C1): the sum over the influence set `I(s) = {c : dist < R}` of
`time_decay · max(0, 1 − dist/R) · severity_weight · K`, with
`K = haversine_length · 1000` for crimes at most 24 h old and `K = 100`
otherwise.  Stated independently of the code path so the two can be
compared. -/
noncomputable def specSegmentPenalty (startLat startLng endLat endLng : ℝ)
    (crimeData : List CrimePoint) : ℝ :=
  let segLen := calculateDistance startLat startLng endLat endLng
  ((crimeData.filter fun c =>
      distancePointToLineSegment c.lat c.lng startLat startLng endLat endLng
        < crimeInfluenceRadius).map fun c =>
    let d := distancePointToLineSegment c.lat c.lng startLat startLng endLat endLng
    calculateTimeDecay c.hoursAgo * max 0 (1 - d / crimeInfluenceRadius) *
      severityWeight c.severity *
      (if c.hoursAgo ≤ 24 then segLen * 1000 else 100)).sum

/-- The `RouteSegment` dataclass.  Crime counts are Python ints (here `ℕ`),
everything else a float (here `ℝ`). -/
structure RouteSegment where
  startLat : ℝ
  startLng : ℝ
  endLat : ℝ
  endLng : ℝ
  distance : ℝ
  safetyScore : ℝ
  crimeDensity : ℝ
  highSeverityCrimes : ℕ
  recentCrimes : ℕ
  criticalCrimes24h : ℕ
  hoursToNearestCrime : ℝ
  crimeDensityScore : ℝ
  edgeWeight : ℝ

open Classical in
/-- `CrimeAwareRouter._create_route_segments` : one `RouteSegment` per pair of
consecutive polyline points, with the density-based safety score, crime
counts, and the crime-penalty edge weight computed exactly as in the
source. -/
noncomputable def createRouteSegments (pathCoordinates : List (ℝ × ℝ))
    (crimeData : List CrimePoint) : List RouteSegment :=
  (pathCoordinates.zip pathCoordinates.tail).map fun p =>
    let startLat := p.1.1
    let startLng := p.1.2
    let endLat := p.2.1
    let endLng := p.2.2
    let distance := calculateDistance startLat startLng endLat endLng
    let segmentCrimes := getCrimesNearSegment startLat startLng endLat endLng crimeData
    let crimeDensity := (segmentCrimes.length : ℝ) / max (distance / 1000) 0.001
    let highSeverityCrimes := (segmentCrimes.filter fun c => decide (7 ≤ c.severity)).length
    let recentCrimes := (segmentCrimes.filter fun c => decide (c.hoursAgo ≤ 24)).length
    let safetyScore :=
      if segmentCrimes = [] then (100.0 : ℝ)
      else
        let penalty := min 100 (crimeDensity * 10 + (highSeverityCrimes : ℝ) * 20 +
          (recentCrimes : ℝ) * 30)
        max 0 (100 - penalty)
    let hoursToNearestCrime := ((segmentCrimes.map fun c => c.hoursAgo).min?).getD 999.0
    let crimeDensityScore := min 1.0 (crimeDensity / 10.0)
    let edgeWeight := distance +
      calculateSegmentCrimePenalty startLat startLng endLat endLng crimeData
    { startLat := startLat, startLng := startLng, endLat := endLat, endLng := endLng
      distance := distance, safetyScore := safetyScore, crimeDensity := crimeDensity
      highSeverityCrimes := highSeverityCrimes, recentCrimes := recentCrimes
      criticalCrimes24h := recentCrimes, hoursToNearestCrime := hoursToNearestCrime
      crimeDensityScore := crimeDensityScore, edgeWeight := edgeWeight }

open Classical in
/-- `CrimeAwareRouter._calculate_segment_safety` : the weighted safety score
used by the Dijkstra path (`_path_to_segments`); it reads the
`distance_to_route` field set by the caller and multiplies each
time·severity·distance product by 20. -/
noncomputable def calculateSegmentSafety (crimes : List CrimePoint) : ℝ :=
  if crimes = [] then 100.0
  else
    let totalPenalty := (crimes.map fun crime =>
      let timeFactor := calculateTimeDecay crime.hoursAgo
      let severityFactor := severityWeight crime.severity
      let distanceFactor := max 0 (1 - crime.distanceToRoute / crimeInfluenceRadius)
      timeFactor * severityFactor * distanceFactor * 20).sum
    max 0 (100 - totalPenalty)

/-- The specification's segment safety score (§4.5 of the spec, used verbatim
for claim C2): `clamp(100 − Σ_{c∈I(s)} t · σ · d · 200, 0, 100)` over the
strict influence set. -/
noncomputable def specSegmentScore (startLat startLng endLat endLng : ℝ)
    (crimeData : List CrimePoint) : ℝ :=
  min 100 (max 0 (100 -
    ((crimeData.filter fun c =>
        distancePointToLineSegment c.lat c.lng startLat startLng endLat endLng
          < crimeInfluenceRadius).map fun c =>
      let d := distancePointToLineSegment c.lat c.lng startLat startLng endLat endLng
      calculateTimeDecay c.hoursAgo * severityWeight c.severity *
        max 0 (1 - d / crimeInfluenceRadius) * 200).sum))

open Classical in
/-- The closed form of the score `_create_route_segments` actually attaches to
a segment: 100 with an empty influence set, otherwise
`max(0, 100 − min(100, 10·density + 20·#highSeverity + 30·#recent))` with
`density = |I(s)| / max(len_km, 0.001)`.  Used to state the amended C2. -/
noncomputable def densitySegmentScore (startLat startLng endLat endLng : ℝ)
    (crimeData : List CrimePoint) : ℝ :=
  let distance := calculateDistance startLat startLng endLat endLng
  let segmentCrimes := getCrimesNearSegment startLat startLng endLat endLng crimeData
  if segmentCrimes = [] then 100.0
  else
    let crimeDensity := (segmentCrimes.length : ℝ) / max (distance / 1000) 0.001
    let high := (segmentCrimes.filter fun c => decide (7 ≤ c.severity)).length
    let recent := (segmentCrimes.filter fun c => decide (c.hoursAgo ≤ 24)).length
    max 0 (100 - min 100 (crimeDensity * 10 + (high : ℝ) * 20 + (recent : ℝ) * 30))

/-- One entry of a Mapbox `routes` array: the geojson coordinates (in
`(lng, lat)` order, as the oracle returns them) plus reported distance
(meters) and duration (seconds). -/
structure MapboxRoute where
  coordinates : List (ℝ × ℝ)
  distance : ℝ
  duration : ℝ

instance : Inhabited MapboxRoute := ⟨⟨[], 0, 0⟩⟩

/-- A Mapbox Directions response, reduced to the only field the router
reads: the `routes` array. -/
structure MapboxResponse where
  routes : List MapboxRoute

/-- `CrimeAwareRouter._parse_mapbox_route` : extract the first route's
coordinates and flip `(lng, lat)` to `(lat, lng)`.  Indexing an empty
`routes` array raises in Python (`IndexError`), modelled as `Except.error`. -/
def parseMapboxRoute (resp : MapboxResponse) : Except String (List (ℝ × ℝ)) :=
  match resp.routes with
  | [] => .error "IndexError: routes"
  | route :: _ => .ok (route.coordinates.map fun c => (c.2, c.1))

/-- Python's `round(x, 1)` modelled as round-half-up to one decimal place.
(Python uses banker's rounding on binary floats; no claim depends on the
tie-breaking, only on what is being rounded.) -/
noncomputable def pyRound1 (x : ℝ) : ℝ := (⌊x * 10 + 1 / 2⌋ : ℝ) / 10

/-- A crime entry of the `critical_crime_zones` list in the route dict. -/
structure CrimeZoneView where
  lat : ℝ
  lng : ℝ
  crimeType : String
  severity : ℤ
  hoursAgo : ℝ

/-- One entry of the `segments` list in the route dict returned by
`_build_route_from_response`. -/
structure SegmentView where
  startLat : ℝ
  startLng : ℝ
  endLat : ℝ
  endLng : ℝ
  distance : ℝ
  safetyScore : ℝ
  crimeDensity : ℝ
  highSeverityCrimes : ℕ
  recentCrimes : ℕ

/-- The route dict returned by `_build_route_from_response`. -/
structure RouteOut where
  routeType : String
  totalDistance : ℝ
  totalDuration : ℝ
  totalSafetyScore : ℝ
  totalCrimePenalty : ℝ
  pathCoordinates : List (ℝ × ℝ)
  segments : List SegmentView
  criticalCrimeZones : List CrimeZoneView

open Classical in
/-- `CrimeAwareRouter._build_route_from_response` : parse the polyline, build
segments, and assemble the route dict.  `total_safety_score` divides the
distance-weighted score sum by the oracle-reported total distance, guarded
by `if total_distance > 0 else 0`. -/
noncomputable def buildRouteFromResponse (resp : MapboxResponse)
    (crimeData : List CrimePoint) (routeType : String) : Except String RouteOut := do
  let pathCoordinates ← parseMapboxRoute resp
  if pathCoordinates = [] then
    throw "No route found"
  else
    let segments := createRouteSegments pathCoordinates crimeData
    let totalDistance := resp.routes.headI.distance
    let totalDuration := resp.routes.headI.duration
    let totalSafetyScore :=
      if 0 < totalDistance then
        (segments.map fun seg => seg.safetyScore * seg.distance).sum / totalDistance
      else 0
    let totalCrimePenalty := (segments.map fun seg =>
      calculateSegmentCrimePenalty seg.startLat seg.startLng seg.endLat seg.endLng
        crimeData).sum
    let criticalCrimes := (crimeData.filter fun crime =>
      decide (crime.hoursAgo ≤ 24) && decide (7 ≤ crime.severity)).map fun crime =>
      CrimeZoneView.mk crime.lat crime.lng crime.crimeType crime.severity crime.hoursAgo
    return { routeType := routeType
             totalDistance := totalDistance
             totalDuration := totalDuration
             totalSafetyScore := totalSafetyScore
             totalCrimePenalty := totalCrimePenalty
             pathCoordinates := pathCoordinates
             segments := segments.map fun seg =>
               SegmentView.mk seg.startLat seg.startLng seg.endLat seg.endLng
                 seg.distance seg.safetyScore seg.crimeDensity
                 seg.highSeverityCrimes seg.recentCrimes
             criticalCrimeZones := criticalCrimes.take 20 }

open Classical in
/-- `CrimeAwareRouter._get_crime_aware_waypoints` : `(lng, lat)` waypoints for
the "safest" oracle call.  An interior waypoint is inserted only when the
number of critical zones (age ≤ 24 h and severity ≥ 7) is between 1 and 9
and the start-end midpoint lies within 200 m of one of them; the waypoint
is the midpoint shifted by ±0.002° on each axis according to the sign of
the overall direction. -/
noncomputable def getCrimeAwareWaypoints (startLat startLng endLat endLng : ℝ)
    (crimeData : List CrimePoint) : List (ℝ × ℝ) :=
  let criticalZones := crimeData.filter fun crime =>
    decide (crime.hoursAgo ≤ 24) && decide (7 ≤ crime.severity)
  let interior : List (ℝ × ℝ) :=
    if criticalZones ≠ [] ∧ criticalZones.length < 10 then
      let midLat := (startLat + endLat) / 2
      let midLng := (startLng + endLng) / 2
      let isSafe := ¬ ∃ crime ∈ criticalZones,
        calculateDistance midLat midLng crime.lat crime.lng < 200
      if isSafe then []
      else
        let offsetLat := midLat + (if startLat < endLat then 0.002 else -0.002)
        let offsetLng := midLng + (if startLng < endLng then 0.002 else -0.002)
        [(offsetLng, offsetLat)]
    else []
  ((startLng, startLat) :: interior) ++ [(endLng, endLat)]

/-- The `comparison` block of the `find_optimal_route` response. -/
structure ComparisonOut where
  timeDifferenceSeconds : ℝ
  timeDifferenceMinutes : ℝ
  distanceDifferenceMeters : ℝ
  distanceDifferencePercent : ℝ
  safetyImprovement : ℝ
  safetyImprovementPercent : ℝ

/-- The full `find_optimal_route` response. -/
structure OptimalRouteResult where
  fastestRoute : RouteOut
  safestRoute : RouteOut
  comparison : ComparisonOut

open Classical in
/-- `CrimeAwareRouter.find_optimal_route`, with the crime snapshot and the
two oracle outcomes as explicit inputs (the database query and the two
`_get_mapbox_route` awaits are the only external effects).  The second
component counts how many oracle calls were issued before the function
returned.  `distance_difference_percent` divides by the raw
`fastest_route['total_distance']`; when that is zero Python raises
`ZeroDivisionError`, modelled as `Except.error`. -/
noncomputable def findOptimalRouteRun (startLat startLng endLat endLng : ℝ)
    (crimeData : List CrimePoint)
    (fastestResponse safestResponse : Option MapboxResponse) :
    Except String OptimalRouteResult × ℕ :=
  match fastestResponse with
  | none => (.error "Failed to get fastest route from Mapbox", 1)
  | some fastResp =>
    let _safestWaypoints :=
      getCrimeAwareWaypoints startLat startLng endLat endLng crimeData
    match safestResponse with
    | none => (.error "Failed to get safest route from Mapbox", 2)
    | some safeResp =>
      (do
        let fastestRoute ← buildRouteFromResponse fastResp crimeData "fastest"
        let safestRoute ← buildRouteFromResponse safeResp crimeData "safest"
        let timeDiffSeconds :=
          safeResp.routes.headI.duration - fastResp.routes.headI.duration
        let distanceDiffMeters := safestRoute.totalDistance - fastestRoute.totalDistance
        let safetyImprovement :=
          safestRoute.totalSafetyScore - fastestRoute.totalSafetyScore
        if fastestRoute.totalDistance = 0 then
          throw "ZeroDivisionError: float division by zero"
        else
          return { fastestRoute := fastestRoute
                   safestRoute := safestRoute
                   comparison :=
                     { timeDifferenceSeconds := pyRound1 timeDiffSeconds
                       timeDifferenceMinutes := pyRound1 (timeDiffSeconds / 60)
                       distanceDifferenceMeters := pyRound1 distanceDiffMeters
                       distanceDifferencePercent :=
                         pyRound1 (distanceDiffMeters / fastestRoute.totalDistance * 100)
                       safetyImprovement := pyRound1 safetyImprovement
                       safetyImprovementPercent :=
                         pyRound1 (safetyImprovement /
                           max fastestRoute.totalSafetyScore 0.1 * 100) } }, 2)

/-- The detour waypoint candidates as the specification words them (§4.6,
used verbatim for claim C4): the midpoint `m` of the selected baseline
segment offset by ±0.003° along the unit vector perpendicular to the
overall route direction `end − start`; returned as
(plus-perpendicular, minus-perpendicular), in `(lat, lng)` order. -/
noncomputable def specDetourCandidates (startLat startLng endLat endLng
    midLat midLng : ℝ) : (ℝ × ℝ) × (ℝ × ℝ) :=
  let dirLat := endLat - startLat
  let dirLng := endLng - startLng
  let norm := Real.sqrt (dirLat * dirLat + dirLng * dirLng)
  let perpLat := -dirLng / norm
  let perpLng := dirLat / norm
  ((midLat + 0.003 * perpLat, midLng + 0.003 * perpLng),
   (midLat - 0.003 * perpLat, midLng - 0.003 * perpLng))

/-- The claim-C9 determinism tuple: start, end, frozen crime snapshot (the
frozen `now` enters only through each crime's `hours_ago`), and the two
frozen oracle responses. -/
structure RouteRequest where
  startLat : ℝ
  startLng : ℝ
  endLat : ℝ
  endLng : ℝ
  crimeData : List CrimePoint
  fastestResponse : Option MapboxResponse
  safestResponse : Option MapboxResponse

/-- One execution of the routing operation on a fixed request tuple. -/
noncomputable def runRouteRequest (r : RouteRequest) :
    Except String OptimalRouteResult × ℕ :=
  findOptimalRouteRun r.startLat r.startLng r.endLat r.endLng
    r.crimeData r.fastestResponse r.safestResponse

section ConcreteInputs

/-- A fresh high-severity crime sitting exactly on the midpoint of the
start-end line used in the C4 scenario. -/
def crimeMid : CrimePoint := ⟨0.005, 0.005, 9, "ASSAULT", 2, 0⟩

/-- An old, low-severity crime at the same point as a degenerate segment. -/
def crimeOld : CrimePoint := ⟨37, -122, 1, "THEFT", 24000, 0⟩

/-- A fresh severe crime whose point-to-segment distance from the degenerate
segment at the origin is exactly 100 m (`(1/1110)° · 111000 = 100`). -/
noncomputable def crimeBoundary : CrimePoint := ⟨1 / 1110, 0, 9, "ASSAULT", 2, 0⟩

/-- A fresh severe crime 111 m from the degenerate segment at the origin. -/
noncomputable def crimeOutside : CrimePoint := ⟨1 / 1000, 0, 9, "ASSAULT", 2, 0⟩

/-- A one-point oracle polyline with reported distance 5 m, duration 60 s. -/
def respFast : MapboxResponse := ⟨[⟨[(0, 0)], 5, 60⟩]⟩

/-- A one-point oracle polyline with reported distance 7 m, duration 80 s. -/
def respSafe : MapboxResponse := ⟨[⟨[(0, 0)], 7, 80⟩]⟩

/-- A one-point oracle polyline whose reported total distance is 0. -/
def respZeroDist : MapboxResponse := ⟨[⟨[(0, 0)], 0, 60⟩]⟩

/-- An equator-spanning two-point polyline whose reported total distance
(1 m) is far below the haversine length of its single segment. -/
def respHalfWorld : MapboxResponse := ⟨[⟨[(0, 0), (180, 0)], 1, 60⟩]⟩

/-- The route dict `_build_route_from_response` produces for `respFast` with
an empty crime set. -/
def outFast : RouteOut := ⟨"fastest", 5, 60, 0, 0, [(0, 0)], [], []⟩

/-- The route dict `_build_route_from_response` produces for `respSafe` with
an empty crime set. -/
def outSafe : RouteOut := ⟨"safest", 7, 80, 0, 0, [(0, 0)], [], []⟩

/-- The full response of the successful `respFast`/`respSafe` run. -/
noncomputable def outBoth : OptimalRouteResult :=
  ⟨outFast, outSafe, ⟨20, 3 / 10, 2, 40, 0, 0⟩⟩

/-- A fixed request tuple. -/
def reqWitness : RouteRequest := ⟨0, 0, 1, 1, [], some respFast, some respSafe⟩

end ConcreteInputs

/-! ## Helper lemmas -/

lemma atan2_nonneg {y x : ℝ} (hy : 0 ≤ y) (hx : 0 ≤ x) : 0 ≤ atan2 y x := by
  unfold atan2
  split_ifs with h1 h2 h3 h4
  case _ =>
    have h := Real.arctan_strictMono.monotone (div_nonneg hy h1.le)
    rwa [Real.arctan_zero] at h
  all_goals linarith [Real.pi_pos]

lemma atan2_zero_one : atan2 0 1 = 0 := by
  unfold atan2
  rw [if_pos one_pos]
  norm_num [Real.arctan_zero]

lemma calculateDistance_self (lat lng : ℝ) : calculateDistance lat lng lat lng = 0 := by
  simp only [calculateDistance, radians, sub_self, zero_mul, zero_div, Real.sin_zero]
  norm_num [Real.sqrt_zero, Real.sqrt_one, atan2_zero_one]

lemma distancePointToLineSegment_degenerate (px py x y : ℝ) :
    distancePointToLineSegment px py x y x y =
      Real.sqrt ((px - x) * (px - x) + (py - y) * (py - y)) * 111000 := by
  simp only [distancePointToLineSegment, sub_self, mul_zero, zero_mul, add_zero]
  norm_num

lemma calculateTimeDecay_nonneg (h : ℝ) : 0 ≤ calculateTimeDecay h := by
  unfold calculateTimeDecay
  split_ifs <;> norm_num

lemma severityWeight_nonneg (s : ℤ) : 0 ≤ severityWeight s := by
  unfold severityWeight
  split_ifs <;> norm_num

lemma calculateDistance_nonneg (lat1 lng1 lat2 lng2 : ℝ) :
    0 ≤ calculateDistance lat1 lng1 lat2 lng2 := by
  simp only [calculateDistance]
  have h := atan2_nonneg (Real.sqrt_nonneg (Real.sin (radians (lat2 - lat1) / 2) ^ 2 +
      Real.cos (radians lat1) * Real.cos (radians lat2) *
      Real.sin (radians (lng2 - lng1) / 2) ^ 2))
    (Real.sqrt_nonneg (1 - (Real.sin (radians (lat2 - lat1) / 2) ^ 2 +
      Real.cos (radians lat1) * Real.cos (radians lat2) *
      Real.sin (radians (lng2 - lng1) / 2) ^ 2)))
  linarith

lemma distancePointToLineSegment_nonneg (px py x1 y1 x2 y2 : ℝ) :
    0 ≤ distancePointToLineSegment px py x1 y1 x2 y2 := by
  simp only [distancePointToLineSegment]
  split_ifs <;> positivity

/-! ## C1 : the segment crime penalty -/

/-- C1: for every segment and crime list, `_calculate_segment_crime_penalty`
returns exactly the specification's sum over the crimes strictly inside the
100 m influence radius of
`time_decay · max(0, 1 − dist/100) · severity_weight · K`, with
`K = haversine_length · 1000` for crimes at most 24 h old and `K = 100`
otherwise (a crime at exactly 100 m is kept by the code's `≤` filter but
contributes 0, so the two sums agree; the empty influence set gives 0). -/
theorem segment_penalty_matches_spec (startLat startLng endLat endLng : ℝ)
    (crimeData : List CrimePoint) :
    calculateSegmentCrimePenalty startLat startLng endLat endLng crimeData =
      specSegmentPenalty startLat startLng endLat endLng crimeData := by
  simp only [calculateSegmentCrimePenalty, specSegmentPenalty, getCrimesNearSegment]
  induction crimeData with
  | nil => simp
  | cons c rest ih =>
    simp only [List.filterMap_cons, List.filter_cons]
    by_cases hle : distancePointToLineSegment c.lat c.lng startLat startLng endLat endLng
        ≤ crimeInfluenceRadius
    · rcases eq_or_lt_of_le hle with heq | hlt
      · rw [if_pos hle, if_neg (by simp [heq])]
        simp only [List.map_cons, List.sum_cons]
        rw [ih]
        rw [heq]
        have hz : (0 : ℝ) ⊔ (1 - crimeInfluenceRadius / crimeInfluenceRadius) = 0 := by
          rw [div_self (by norm_num [crimeInfluenceRadius])]
          norm_num
        rw [hz]
        split_ifs <;> ring
      · rw [if_pos hle, if_pos (by simp only [decide_eq_true_eq]; exact hlt)]
        simp only [List.map_cons, List.sum_cons]
        rw [ih]
        congr 1
        simp only [criticalHours]
        split_ifs <;> ring
    · have h1 : ¬ distancePointToLineSegment c.lat c.lng startLat startLng endLat endLng
          < crimeInfluenceRadius := fun hlt => hle hlt.le
      rw [if_neg hle, if_neg (by simpa using h1)]
      simpa using ih

/-! ## C2 : the segment safety score -/

/-- Helper: the safety scores attached by `_create_route_segments` are,
segment by segment, the density-based score `densitySegmentScore`. -/
lemma createRouteSegments_safetyScores (path : List (ℝ × ℝ))
    (crimes : List CrimePoint) :
    (createRouteSegments path crimes).map (fun s => s.safetyScore) =
      (path.zip path.tail).map
        (fun p => densitySegmentScore p.1.1 p.1.2 p.2.1 p.2.2 crimes) := by
  simp only [createRouteSegments, densitySegmentScore, List.map_map]
  rfl

/-- C2 (amended): the safety score `_create_route_segments` attaches to each
returned segment is the density-based score (100 for an empty influence
set, else `max(0, 100 − min(100, 10·density + 20·#highSeverity +
30·#recent))`), not the spec's weighted sum; and the weighted-sum helper
`_calculate_segment_safety` (used only on the Dijkstra path) equals
`clamp(100 − Σ t·σ·d·20, 0, 100)` — multiplier 20, not the claimed 200. -/
theorem segment_safety_score_formula :
    (∀ (path : List (ℝ × ℝ)) (crimes : List CrimePoint),
      (createRouteSegments path crimes).map (fun s => s.safetyScore) =
        (path.zip path.tail).map
          (fun p => densitySegmentScore p.1.1 p.1.2 p.2.1 p.2.2 crimes)) ∧
    (∀ crimes : List CrimePoint,
      calculateSegmentSafety crimes =
        min 100 (max 0 (100 - (crimes.map fun c =>
          calculateTimeDecay c.hoursAgo * severityWeight c.severity *
            max 0 (1 - c.distanceToRoute / crimeInfluenceRadius) * 20).sum))) := by
  constructor
  · exact createRouteSegments_safetyScores
  · intro crimes
    have hsum : 0 ≤ (crimes.map fun c =>
        calculateTimeDecay c.hoursAgo * severityWeight c.severity *
          max 0 (1 - c.distanceToRoute / crimeInfluenceRadius) * 20).sum := by
      apply List.sum_nonneg
      intro x hx
      simp only [List.mem_map] at hx
      obtain ⟨c, _, rfl⟩ := hx
      have h1 := calculateTimeDecay_nonneg c.hoursAgo
      have h2 := severityWeight_nonneg c.severity
      have h3 : (0 : ℝ) ≤ max 0 (1 - c.distanceToRoute / crimeInfluenceRadius) :=
        le_max_left 0 _
      positivity
    unfold calculateSegmentSafety
    split_ifs with hempty
    · subst hempty
      norm_num
    · rw [min_eq_right]
      exact max_le (by norm_num) (by linarith)

/-- C2 counterexample: a degenerate segment at `(37, −122)` with a single
24 000-hour-old severity-1 crime at the same point.  The code's score is 0
(the density term saturates the penalty), while the spec's
`clamp(100 − Σ t·σ·d·200, 0, 100)` is 98. -/
theorem segment_safety_score_spec_counterexample :
    (createRouteSegments [(37, -122), (37, -122)] [crimeOld]).map
      (fun s => s.safetyScore) = [0] ∧
    specSegmentScore 37 (-122) 37 (-122) [crimeOld] = 98 ∧
    (0 : ℝ) ≠ 98 := by
  have hdist : distancePointToLineSegment crimeOld.lat crimeOld.lng
      37 (-122) 37 (-122) = 0 := by
    rw [show crimeOld.lat = 37 from rfl, show crimeOld.lng = (-122 : ℝ) from rfl,
      distancePointToLineSegment_degenerate]
    norm_num
  have hnear : getCrimesNearSegment 37 (-122) 37 (-122) [crimeOld] =
      [⟨37, -122, 1, "THEFT", 24000, 0⟩] := by
    unfold getCrimesNearSegment
    rw [List.filterMap_cons, hdist]
    rw [if_pos (show (0 : ℝ) ≤ crimeInfluenceRadius by norm_num [crimeInfluenceRadius])]
    simp [crimeOld]
  refine ⟨?_, ?_, by norm_num⟩
  · rw [createRouteSegments_safetyScores]
    show [densitySegmentScore 37 (-122) 37 (-122) [crimeOld]] = [0]
    unfold densitySegmentScore
    rw [hnear, calculateDistance_self]
    rw [if_neg (List.cons_ne_nil _ _)]
    simp only [List.length_cons, List.length_nil, List.filter_cons, List.filter_nil]
    rw [if_neg (by decide), if_neg (by simp only [decide_eq_true_eq]; norm_num)]
    norm_num [max_def, min_def]
  · unfold specSegmentScore
    rw [List.filter_cons, List.filter_nil]
    rw [if_pos (by simp only [decide_eq_true_eq, hdist, crimeInfluenceRadius]; norm_num)]
    simp only [List.map_cons, List.map_nil, List.sum_cons, List.sum_nil, hdist]
    rw [show calculateTimeDecay crimeOld.hoursAgo = 0.1 by
      unfold calculateTimeDecay criticalHours
      rw [show crimeOld.hoursAgo = (24000 : ℝ) from rfl]
      norm_num]
    rw [show severityWeight crimeOld.severity = 0.1 by
      unfold severityWeight
      rw [show crimeOld.severity = (1 : ℤ) from rfl]
      norm_num]
    norm_num [crimeInfluenceRadius, max_def, min_def]

/-! ## C3 : behavior when the alternative oracle call fails -/

/-- C3 counterexample: with a healthy baseline response and a failed
alternative call, `find_optimal_route` raises instead of returning a
fallback response with `safest == fastest`. -/
theorem alternative_failure_counterexample :
    (findOptimalRouteRun 0 0 1 1 [] (some respFast) none).1 =
      Except.error "Failed to get safest route from Mapbox" := rfl

/-- C3 (amended): whenever the baseline oracle call succeeds and the
alternative call fails, `find_optimal_route` propagates an exception
("Failed to get safest route from Mapbox") to the caller; no fallback
response is produced. -/
theorem alternative_failure_raises (startLat startLng endLat endLng : ℝ)
    (crimeData : List CrimePoint) (r : MapboxResponse) :
    (findOptimalRouteRun startLat startLng endLat endLng crimeData (some r) none).1 =
      Except.error "Failed to get safest route from Mapbox" := rfl

/-! ## Evaluation helpers for the orchestrator -/

lemma except_bind_ok {ε α β : Type} (a : α) (f : α → Except ε β) :
    (Except.ok a >>= f) = f a := rfl

lemma pyRound1_eq (x : ℝ) (n : ℤ) (h1 : (n : ℝ) ≤ x * 10 + 1 / 2)
    (h2 : x * 10 + 1 / 2 < n + 1) : pyRound1 x = n / 10 := by
  unfold pyRound1
  rw [Int.floor_eq_iff.mpr ⟨h1, h2⟩]

/-- Building a route from a one-point polyline with no crimes: no segments,
so the totals collapse to the oracle-reported numbers and score 0. -/
lemma build_single_point (lng lat d dur : ℝ) (rt : String) :
    buildRouteFromResponse ⟨[⟨[(lng, lat)], d, dur⟩]⟩ [] rt =
      Except.ok ⟨rt, d, dur, 0, 0, [(lat, lng)], [], []⟩ := by
  have hseg : createRouteSegments [(lat, lng)] ([] : List CrimePoint) = [] := by
    simp [createRouteSegments]
  unfold buildRouteFromResponse parseMapboxRoute
  simp only [List.map_cons, List.map_nil]
  rw [except_bind_ok, if_neg (List.cons_ne_nil _ _), hseg]
  simp only [List.headI, List.map_nil, List.sum_nil, zero_div, ite_self,
    List.filter_nil, List.take_nil]
  rfl

/-- The concrete `respFast`/`respSafe` request succeeds, returns `outBoth`,
and issues two oracle calls. -/
lemma run_fast_safe :
    findOptimalRouteRun 0 0 1 1 [] (some respFast) (some respSafe) =
      (Except.ok outBoth, 2) := by
  have h1 : buildRouteFromResponse respFast [] "fastest" = Except.ok outFast :=
    build_single_point 0 0 5 60 "fastest"
  have h2 : buildRouteFromResponse respSafe [] "safest" = Except.ok outSafe :=
    build_single_point 0 0 7 80 "safest"
  have p0 : pyRound1 0 = 0 := by
    rw [pyRound1_eq 0 0 (by norm_num) (by norm_num)]
    norm_num
  have p20 : pyRound1 20 = 20 := by
    rw [pyRound1_eq 20 200 (by norm_num) (by norm_num)]
    norm_num
  have pThird : pyRound1 (20 / 60) = 3 / 10 := by
    rw [pyRound1_eq (20 / 60) 3 (by norm_num) (by norm_num)]
    norm_num
  have p2 : pyRound1 2 = 2 := by
    rw [pyRound1_eq 2 20 (by norm_num) (by norm_num)]
    norm_num
  have p40 : pyRound1 40 = 40 := by
    rw [pyRound1_eq 40 400 (by norm_num) (by norm_num)]
    norm_num
  unfold findOptimalRouteRun
  simp only [h1, h2, except_bind_ok]
  rw [if_neg (show ¬outFast.totalDistance = 0 by norm_num [outFast])]
  have hrec :
      ({ fastestRoute := outFast, safestRoute := outSafe,
         comparison :=
           { timeDifferenceSeconds :=
               pyRound1 ((respSafe.routes.headI.duration : ℝ) -
                 respFast.routes.headI.duration)
             timeDifferenceMinutes :=
               pyRound1 ((respSafe.routes.headI.duration -
                 respFast.routes.headI.duration) / 60)
             distanceDifferenceMeters :=
               pyRound1 (outSafe.totalDistance - outFast.totalDistance)
             distanceDifferencePercent :=
               pyRound1 ((outSafe.totalDistance - outFast.totalDistance) /
                 outFast.totalDistance * 100)
             safetyImprovement :=
               pyRound1 (outSafe.totalSafetyScore - outFast.totalSafetyScore)
             safetyImprovementPercent :=
               pyRound1 ((outSafe.totalSafetyScore - outFast.totalSafetyScore) /
                 max outFast.totalSafetyScore 0.1 * 100) } } :
        OptimalRouteResult) = outBoth := by
    unfold outBoth
    congr 1
    show ComparisonOut.mk _ _ _ _ _ _ = ComparisonOut.mk 20 (3 / 10) 2 40 0 0
    have e1 : (respSafe.routes.headI.duration : ℝ) -
        respFast.routes.headI.duration = 20 := by
      norm_num [respSafe, respFast, List.headI]
    have e2 : outSafe.totalDistance - outFast.totalDistance = (2 : ℝ) := by
      norm_num [outSafe, outFast]
    have e3 : (outSafe.totalDistance - outFast.totalDistance) /
        outFast.totalDistance * 100 = (40 : ℝ) := by
      norm_num [outSafe, outFast]
    have e4 : outSafe.totalSafetyScore - outFast.totalSafetyScore = (0 : ℝ) := by
      norm_num [outSafe, outFast]
    have e5 : (outSafe.totalSafetyScore - outFast.totalSafetyScore) /
        max outFast.totalSafetyScore 0.1 * 100 = (0 : ℝ) := by
      norm_num [outSafe, outFast]
    rw [e1, e3, e5, e2, e4, p0, p20, pThird, p2, p40]
  rw [hrec]
  rfl

lemma except_bind_error {ε α β : Type} (e : ε) (f : α → Except ε β) :
    (Except.error e >>= f) = Except.error e := rfl

lemma except_throw {ε α : Type} (e : ε) : (throw e : Except ε α) = Except.error e := rfl

lemma except_pure {ε α : Type} (a : α) : (pure a : Except ε α) = Except.ok a := rfl

/-! ## C7 : the comparison-block denominators -/

/-- C7 counterexample: when the fastest route's oracle-reported total
distance is 0 the distance-percentage computation divides by zero and the
request fails, so the distance denominator is not guarded. -/
theorem comparison_zero_distance_counterexample :
    (findOptimalRouteRun 0 0 1 1 [] (some respZeroDist) (some respZeroDist)).1 =
      Except.error "ZeroDivisionError: float division by zero" := by
  have h1 : buildRouteFromResponse respZeroDist [] "fastest" =
      Except.ok ⟨"fastest", 0, 60, 0, 0, [(0, 0)], [], []⟩ :=
    build_single_point 0 0 0 60 "fastest"
  have h2 : buildRouteFromResponse respZeroDist [] "safest" =
      Except.ok ⟨"safest", 0, 60, 0, 0, [(0, 0)], [], []⟩ :=
    build_single_point 0 0 0 60 "safest"
  unfold findOptimalRouteRun
  simp only [h1, h2, except_bind_ok]
  rw [if_pos trivial]
  rfl

/-- C7 (amended): only the safety-improvement percentage is guarded — every
successful response computes it with denominator
`max(fastest.total_safety_score, 0.1)`, and success requires the fastest
route's total distance to be nonzero, because
`distance_difference_percent` divides by that raw value (a zero distance
raises `ZeroDivisionError` instead). -/
theorem comparison_denominator_guards (startLat startLng endLat endLng : ℝ)
    (crimeData : List CrimePoint) (r1 r2 : Option MapboxResponse)
    (out : OptimalRouteResult)
    (h : (findOptimalRouteRun startLat startLng endLat endLng crimeData r1 r2).1 =
      Except.ok out) :
    out.comparison.safetyImprovementPercent =
      pyRound1 ((out.safestRoute.totalSafetyScore -
        out.fastestRoute.totalSafetyScore) /
        max out.fastestRoute.totalSafetyScore 0.1 * 100) ∧
    out.fastestRoute.totalDistance ≠ 0 := by
  cases r1 with
  | none => simp [findOptimalRouteRun] at h
  | some fastResp =>
    cases r2 with
    | none => simp [findOptimalRouteRun] at h
    | some safeResp =>
      simp only [findOptimalRouteRun] at h
      cases hb1 : buildRouteFromResponse fastResp crimeData "fastest" with
      | error e =>
        rw [hb1, except_bind_error] at h
        exact absurd h (by simp)
      | ok fr =>
        rw [hb1, except_bind_ok] at h
        cases hb2 : buildRouteFromResponse safeResp crimeData "safest" with
        | error e =>
          rw [hb2, except_bind_error] at h
          exact absurd h (by simp)
        | ok sr =>
          rw [hb2, except_bind_ok] at h
          by_cases hz : fr.totalDistance = 0
          · rw [if_pos hz, except_throw] at h
            exact absurd h (by simp)
          · rw [if_neg hz, except_pure] at h
            have hout := Except.ok.inj h
            rw [← hout]
            exact ⟨rfl, hz⟩

/-- C7 witness: the concrete successful `respFast`/`respSafe` run satisfies
the guarded-safety-denominator property with a nonzero fastest distance. -/
theorem comparison_denominator_guards_witness :
    (findOptimalRouteRun 0 0 1 1 [] (some respFast) (some respSafe)).1 =
      Except.ok outBoth ∧
    (outBoth.comparison.safetyImprovementPercent =
      pyRound1 ((outBoth.safestRoute.totalSafetyScore -
        outBoth.fastestRoute.totalSafetyScore) /
        max outBoth.fastestRoute.totalSafetyScore 0.1 * 100) ∧
     outBoth.fastestRoute.totalDistance ≠ 0) := by
  have hrun : (findOptimalRouteRun 0 0 1 1 [] (some respFast) (some respSafe)).1 =
      Except.ok outBoth := by rw [run_fast_safe]
  exact ⟨hrun, comparison_denominator_guards 0 0 1 1 []
    (some respFast) (some respSafe) outBoth hrun⟩

/-! ## C8 : number of oracle calls -/

/-- C8 counterexample: the empty crime set synthesizes no detour (the
waypoint list is just start and end), the request succeeds, and still two
oracle calls are issued, not one. -/
theorem oracle_call_count_counterexample :
    getCrimeAwareWaypoints 0 0 1 1 [] = [(0, 0), (1, 1)] ∧
    (findOptimalRouteRun 0 0 1 1 [] (some respFast) (some respSafe)).1 =
      Except.ok outBoth ∧
    (findOptimalRouteRun 0 0 1 1 [] (some respFast) (some respSafe)).2 = 2 ∧
    (2 : ℕ) ≠ 1 := by
  refine ⟨?_, by rw [run_fast_safe], by rw [run_fast_safe], by norm_num⟩
  unfold getCrimeAwareWaypoints
  simp

/-- C8 (amended): the orchestrator issues exactly two oracle calls whenever
the baseline call succeeds — whether or not a detour waypoint was
synthesized — and one call when the baseline call fails. -/
theorem oracle_call_count (startLat startLng endLat endLng : ℝ)
    (crimeData : List CrimePoint) (r1 : MapboxResponse)
    (r2 : Option MapboxResponse) :
    (findOptimalRouteRun startLat startLng endLat endLng crimeData (some r1) r2).2 = 2 ∧
    (findOptimalRouteRun startLat startLng endLat endLng crimeData none r2).2 = 1 := by
  refine ⟨?_, rfl⟩
  cases r2 <;> rfl

/-! ## C9 : determinism -/

/-- C9: the routing operation is a pure function of the request tuple
(start, end, crime snapshot with frozen ages, and the two frozen oracle
responses): two executions on equal tuples produce identical responses —
no randomization enters the scores, the safest route, or the deltas. -/
theorem routing_deterministic (r1 r2 : RouteRequest) (h : r1 = r2) :
    runRouteRequest r1 = runRouteRequest r2 := by rw [h]

/-- C9 witness: two executions of the concrete `reqWitness` tuple agree. -/
theorem routing_deterministic_witness :
    runRouteRequest reqWitness = runRouteRequest reqWitness :=
  routing_deterministic reqWitness reqWitness rfl

/-! ## C10 : recent vs critical 24-hour counts -/

/-- C10: in every segment built by `_create_route_segments`,
`recent_crimes` equals `critical_crimes_24h`, and both count exactly the
influence-radius crimes at most 24 hours old (no 7-day count exists on the
oracle-based path). -/
theorem recent_crimes_equal_critical (path : List (ℝ × ℝ))
    (crimes : List CrimePoint) :
    ((createRouteSegments path crimes).map fun s => s.recentCrimes) =
      ((createRouteSegments path crimes).map fun s => s.criticalCrimes24h) ∧
    ((createRouteSegments path crimes).map fun s => s.recentCrimes) =
      (path.zip path.tail).map (fun p =>
        ((getCrimesNearSegment p.1.1 p.1.2 p.2.1 p.2.2 crimes).filter
          (fun c => decide (c.hoursAgo ≤ 24))).length) := by
  constructor
  · simp only [createRouteSegments, List.map_map]
    rfl
  · simp only [createRouteSegments, List.map_map]
    rfl

/-! ## C4 : the detour waypoint -/

/-- C4 (amended): the synthesized waypoint list is either just
`[start, end]` (no detour) or `[start, w, end]` where the interior
waypoint `w` is the start–end midpoint shifted by ±0.002° on each axis
according to the sign of the overall direction — not a perpendicular
0.003° offset from the worst baseline segment. -/
theorem detour_waypoint_shape (startLat startLng endLat endLng : ℝ)
    (crimeData : List CrimePoint) :
    getCrimeAwareWaypoints startLat startLng endLat endLng crimeData =
      [(startLng, startLat), (endLng, endLat)] ∨
    getCrimeAwareWaypoints startLat startLng endLat endLng crimeData =
      [(startLng, startLat),
       ((startLng + endLng) / 2 + (if startLng < endLng then 0.002 else -0.002),
        (startLat + endLat) / 2 + (if startLat < endLat then 0.002 else -0.002)),
       (endLng, endLat)] := by
  unfold getCrimeAwareWaypoints
  dsimp only
  split_ifs <;> first | (left; rfl) | (right; rfl)

/-- C4 counterexample: with start `(0,0)`, end `(0.01, 0.01)` and a single
fresh severity-9 crime on the midpoint, the code produces the interior
waypoint `(lat, lng) = (0.007, 0.007)`, whose latitude differs from both
of the spec's perpendicular ±0.003° candidates around the (sole) baseline
segment's midpoint `(0.005, 0.005)`. -/
theorem detour_waypoint_spec_counterexample :
    getCrimeAwareWaypoints 0 0 0.01 0.01 [crimeMid] =
      [(0, 0), (0.007, 0.007), (0.01, 0.01)] ∧
    (0.007 : ℝ) ≠ (specDetourCandidates 0 0 0.01 0.01 0.005 0.005).1.1 ∧
    (0.007 : ℝ) ≠ (specDetourCandidates 0 0 0.01 0.01 0.005 0.005).2.1 := by
  have hs2 : (0 : ℝ) < Real.sqrt 2 := Real.sqrt_pos.mpr (by norm_num)
  have hss : Real.sqrt 2 * Real.sqrt 2 = 2 := Real.mul_self_sqrt (by norm_num)
  have hnorm : Real.sqrt ((0.01 - 0) * (0.01 - 0) + (0.01 - 0) * (0.01 - 0)) =
      0.01 * Real.sqrt 2 := by
    rw [show ((0.01 : ℝ) - 0) * (0.01 - 0) + (0.01 - 0) * (0.01 - 0) =
      (0.01 : ℝ) ^ 2 * 2 by ring]
    rw [Real.sqrt_mul (by positivity), Real.sqrt_sq (by norm_num)]
  refine ⟨?_, ?_, ?_⟩
  · have hzones : List.filter
        (fun crime => decide (crime.hoursAgo ≤ 24) && decide (7 ≤ crime.severity))
        [crimeMid] = [crimeMid] := by
      rw [List.filter_cons, List.filter_nil]
      rw [if_pos (by
        simp only [Bool.and_eq_true, decide_eq_true_eq]
        exact ⟨by norm_num [crimeMid], by norm_num [crimeMid]⟩)]
    have hdistmid : calculateDistance ((0 + 0.01) / 2) ((0 + 0.01) / 2)
        crimeMid.lat crimeMid.lng = 0 := by
      rw [show crimeMid.lat = (((0 : ℝ) + 0.01) / 2) by norm_num [crimeMid],
        show crimeMid.lng = (((0 : ℝ) + 0.01) / 2) by norm_num [crimeMid]]
      exact calculateDistance_self _ _
    unfold getCrimeAwareWaypoints
    rw [hzones]
    dsimp only
    rw [if_pos (show ([crimeMid] ≠ [] ∧ ([crimeMid] : List CrimePoint).length < 10)
      from ⟨List.cons_ne_nil _ _, by simp⟩)]
    rw [if_neg (not_not_intro ⟨crimeMid, List.mem_cons_self _ _, by
      rw [hdistmid]; norm_num⟩)]
    norm_num
  · simp only [specDetourCandidates]
    rw [hnorm]
    have h1 : (0 : ℝ) < 0.01 * Real.sqrt 2 := by positivity
    have h2 : -((0.01 : ℝ) - 0) / (0.01 * Real.sqrt 2) < 0 :=
      div_neg_of_neg_of_pos (by norm_num) h1
    exact ne_of_gt (by nlinarith)
  · simp only [specDetourCandidates]
    rw [hnorm]
    intro heq
    have hne : (0.01 : ℝ) * Real.sqrt 2 ≠ 0 := by positivity
    field_simp at heq
    nlinarith [hss, hs2, heq]

/-! ## C5 : score bounds -/

/-- Helper: every segment built by `_create_route_segments` has nonnegative
haversine distance and a safety score in `[0, 100]`. -/
lemma createRouteSegments_bounds (path : List (ℝ × ℝ)) (crimes : List CrimePoint) :
    ∀ seg ∈ createRouteSegments path crimes,
      0 ≤ seg.distance ∧ 0 ≤ seg.safetyScore ∧ seg.safetyScore ≤ 100 := by
  intro seg hseg
  simp only [createRouteSegments, List.mem_map] at hseg
  obtain ⟨p, _, rfl⟩ := hseg
  refine ⟨calculateDistance_nonneg _ _ _ _, ?_, ?_⟩
  · dsimp only
    split_ifs
    · norm_num
    · exact le_max_left 0 _
  · dsimp only
    split_ifs
    · norm_num
    · have hd : (0 : ℝ) ≤
          ((getCrimesNearSegment p.1.1 p.1.2 p.2.1 p.2.2 crimes).length : ℝ) /
            max (calculateDistance p.1.1 p.1.2 p.2.1 p.2.2 / 1000) 0.001 :=
        div_nonneg (Nat.cast_nonneg _)
          (le_trans (by norm_num) (le_max_right _ _))
      have hpen : (0 : ℝ) ≤
          ((getCrimesNearSegment p.1.1 p.1.2 p.2.1 p.2.2 crimes).length : ℝ) /
            max (calculateDistance p.1.1 p.1.2 p.2.1 p.2.2 / 1000) 0.001 * 10 +
          (((getCrimesNearSegment p.1.1 p.1.2 p.2.1 p.2.2 crimes).filter
            (fun c => decide (7 ≤ c.severity))).length : ℝ) * 20 +
          (((getCrimesNearSegment p.1.1 p.1.2 p.2.1 p.2.2 crimes).filter
            (fun c => decide (c.hoursAgo ≤ 24))).length : ℝ) * 30 := by
        have h1 : (0 : ℝ) ≤ (((getCrimesNearSegment p.1.1 p.1.2 p.2.1 p.2.2
            crimes).filter (fun c => decide (7 ≤ c.severity))).length : ℝ) :=
          Nat.cast_nonneg _
        have h2 : (0 : ℝ) ≤ (((getCrimesNearSegment p.1.1 p.1.2 p.2.1 p.2.2
            crimes).filter (fun c => decide (c.hoursAgo ≤ 24))).length : ℝ) :=
          Nat.cast_nonneg _
        linarith
      have hmin : (0 : ℝ) ≤ min 100 _ := le_min (by norm_num) hpen
      exact max_le (by norm_num) (by linarith)

/-- Helper: with pointwise bounds, the distance-weighted score sum is
nonnegative and at most `100 ·` the distance sum. -/
lemma weighted_score_sum_bounds (L : List RouteSegment)
    (h : ∀ s ∈ L, 0 ≤ s.distance ∧ 0 ≤ s.safetyScore ∧ s.safetyScore ≤ 100) :
    0 ≤ (L.map fun s => s.safetyScore * s.distance).sum ∧
    (L.map fun s => s.safetyScore * s.distance).sum ≤
      100 * (L.map fun s => s.distance).sum := by
  induction L with
  | nil => simp
  | cons a L ih =>
    have ha := h a (List.mem_cons_self a L)
    have hL := ih (fun s hs => h s (List.mem_cons_of_mem a hs))
    simp only [List.map_cons, List.sum_cons]
    constructor
    · have := mul_nonneg ha.2.1 ha.1
      linarith [hL.1]
    · have h1 : a.safetyScore * a.distance ≤ 100 * a.distance :=
        mul_le_mul_of_nonneg_right ha.2.2 ha.1
      linarith [hL.2]

/-- C5 (amended): every returned segment's safety score lies in `[0, 100]`,
and the route's `total_safety_score` lies in `[0, 100]` whenever the
oracle-reported total distance is at least the sum of the per-segment
haversine distances (in particular when they agree); when the oracle
reports less, the distance-weighted mean can exceed 100. -/
theorem route_safety_bounds (resp : MapboxResponse) (crimes : List CrimePoint)
    (rt : String) (out : RouteOut)
    (h : buildRouteFromResponse resp crimes rt = Except.ok out) :
    (∀ s ∈ out.segments, 0 ≤ s.safetyScore ∧ s.safetyScore ≤ 100) ∧
    ((out.segments.map fun s => s.distance).sum ≤ out.totalDistance →
      0 ≤ out.totalSafetyScore ∧ out.totalSafetyScore ≤ 100) := by
  cases hp : parseMapboxRoute resp with
  | error e =>
    unfold buildRouteFromResponse at h
    rw [hp, except_bind_error] at h
    exact absurd h (by simp)
  | ok coords =>
    unfold buildRouteFromResponse at h
    rw [hp, except_bind_ok] at h
    by_cases hc : coords = []
    · rw [if_pos hc, except_throw] at h
      exact absurd h (by simp)
    · rw [if_neg hc, except_pure] at h
      have hout := Except.ok.inj h
      have hbounds := createRouteSegments_bounds coords crimes
      constructor
      · intro s hs
        rw [← hout] at hs
        simp only [List.mem_map] at hs
        obtain ⟨seg, hseg, rfl⟩ := hs
        exact ⟨(hbounds seg hseg).2.1, (hbounds seg hseg).2.2⟩
      · intro hsum
        rw [← hout] at hsum ⊢
        have hws := weighted_score_sum_bounds (createRouteSegments coords crimes)
          hbounds
        simp only [List.map_map] at hsum
        have hsum' : ((createRouteSegments coords crimes).map
            fun s => s.distance).sum ≤ resp.routes.headI.distance := hsum
        dsimp only
        split_ifs with hD
        · refine ⟨div_nonneg hws.1 hD.le, ?_⟩
          rw [div_le_iff₀ hD]
          have h100 : (100 : ℝ) * ((createRouteSegments coords crimes).map
              fun s => s.distance).sum ≤ 100 * resp.routes.headI.distance :=
            mul_le_mul_of_nonneg_left hsum' (by norm_num)
          calc ((createRouteSegments coords crimes).map
                fun s => s.safetyScore * s.distance).sum
              ≤ 100 * ((createRouteSegments coords crimes).map
                fun s => s.distance).sum := hws.2
            _ ≤ 100 * resp.routes.headI.distance := h100
        · norm_num

lemma calculateDistance_equator : calculateDistance 0 0 0 180 = 6371000 * Real.pi := by
  unfold calculateDistance radians
  rw [show ((0 : ℝ) - 0) * Real.pi / 180 = 0 by ring,
    show ((180 : ℝ) - 0) * Real.pi / 180 = Real.pi by ring,
    show (0 : ℝ) * Real.pi / 180 = 0 by ring]
  dsimp only
  rw [show (0 : ℝ) / 2 = 0 by norm_num, Real.sin_zero, Real.cos_zero,
    Real.sin_pi_div_two]
  norm_num
  unfold atan2
  rw [if_neg (lt_irrefl 0), if_neg (lt_irrefl 0), if_pos one_pos]
  ring

/-- C5 counterexample: an equator-spanning polyline whose oracle-reported
distance is only 1 m.  The single segment scores 100 with haversine length
`6 371 000 π` m, so the distance-weighted mean is `100 · 6 371 000 π / 1`,
far above 100. -/
theorem total_safety_score_counterexample :
    ((buildRouteFromResponse respHalfWorld [] "fastest").toOption.map
      (fun out => out.totalSafetyScore)).getD 0 > 100 := by
  unfold buildRouteFromResponse parseMapboxRoute respHalfWorld
  simp only [List.map_cons, List.map_nil]
  rw [except_bind_ok, if_neg (List.cons_ne_nil _ _)]
  simp only [except_pure, Except.toOption, Option.map, Option.getD, List.headI]
  rw [if_pos one_pos]
  simp only [createRouteSegments, getCrimesNearSegment, List.tail_cons,
    List.zip_cons_cons, List.zip_nil_right, List.map_cons, List.map_nil,
    List.filterMap_nil, List.sum_cons, List.sum_nil]
  rw [if_pos trivial, calculateDistance_equator]
  have hpi := Real.pi_gt_three
  nlinarith

/-- C5 witness: the concrete one-point `respFast` build succeeds; its (empty)
segment list satisfies the bounds vacuously, the haversine sum 0 is below
the reported distance 5, and the total score 0 lies in `[0, 100]`. -/
theorem route_safety_bounds_witness :
    buildRouteFromResponse respFast [] "fastest" = Except.ok outFast ∧
    (∀ s ∈ outFast.segments, 0 ≤ s.safetyScore ∧ s.safetyScore ≤ 100) ∧
    ((outFast.segments.map fun s => s.distance).sum ≤ outFast.totalDistance ∧
      0 ≤ outFast.totalSafetyScore ∧ outFast.totalSafetyScore ≤ 100) := by
  have hb : buildRouteFromResponse respFast [] "fastest" = Except.ok outFast :=
    build_single_point 0 0 5 60 "fastest"
  have hsum : (outFast.segments.map fun s => s.distance).sum ≤
      outFast.totalDistance := by norm_num [outFast]
  have hmain := route_safety_bounds respFast [] "fastest" outFast hb
  exact ⟨hb, hmain.1, hsum, hmain.2 hsum⟩

/-! ## C6 : bounded influence -/

/-- Helper: a crime farther than the influence radius is dropped by
`_get_crimes_near_segment`. -/
lemma getCrimesNearSegment_drop (a1 a2 b1 b2 : ℝ) (pre post : List CrimePoint)
    (c : CrimePoint)
    (h : ¬ distancePointToLineSegment c.lat c.lng a1 a2 b1 b2 ≤ crimeInfluenceRadius) :
    getCrimesNearSegment a1 a2 b1 b2 (pre ++ c :: post) =
      getCrimesNearSegment a1 a2 b1 b2 (pre ++ post) := by
  unfold getCrimesNearSegment
  rw [List.filterMap_append, List.filterMap_append, List.filterMap_cons]
  dsimp only
  rw [if_neg h]

/-- C6 (amended): removing a crime whose point-to-segment distance is
strictly greater than 100 m changes neither the segment's crime penalty
nor its safety score.  (At exactly 100 m the `≤` filter keeps the crime:
the penalty is still unchanged, since its distance factor is 0, but the
count-based safety score can change.) -/
theorem crime_beyond_radius_no_influence (a1 a2 b1 b2 : ℝ)
    (pre post : List CrimePoint) (c : CrimePoint)
    (h : crimeInfluenceRadius < distancePointToLineSegment c.lat c.lng a1 a2 b1 b2) :
    calculateSegmentCrimePenalty a1 a2 b1 b2 (pre ++ c :: post) =
      calculateSegmentCrimePenalty a1 a2 b1 b2 (pre ++ post) ∧
    (createRouteSegments [(a1, a2), (b1, b2)] (pre ++ c :: post)).map
      (fun s => s.safetyScore) =
    (createRouteSegments [(a1, a2), (b1, b2)] (pre ++ post)).map
      (fun s => s.safetyScore) := by
  have hdrop := getCrimesNearSegment_drop a1 a2 b1 b2 pre post c (not_le.mpr h)
  constructor
  · unfold calculateSegmentCrimePenalty
    rw [hdrop]
  · rw [createRouteSegments_safetyScores, createRouteSegments_safetyScores]
    simp only [List.tail_cons, List.zip_cons_cons, List.zip_nil_right,
      List.map_cons, List.map_nil]
    unfold densitySegmentScore
    rw [hdrop]

/-- C6 witness: a crime 111 m from a degenerate segment at the origin has no
effect on the penalty or the safety score. -/
theorem crime_beyond_radius_no_influence_witness :
    crimeInfluenceRadius <
      distancePointToLineSegment crimeOutside.lat crimeOutside.lng 0 0 0 0 ∧
    (calculateSegmentCrimePenalty 0 0 0 0 ([] ++ crimeOutside :: []) =
      calculateSegmentCrimePenalty 0 0 0 0 ([] ++ []) ∧
     (createRouteSegments [((0 : ℝ), (0 : ℝ)), ((0 : ℝ), (0 : ℝ))]
        ([] ++ crimeOutside :: [])).map (fun s => s.safetyScore) =
     (createRouteSegments [((0 : ℝ), (0 : ℝ)), ((0 : ℝ), (0 : ℝ))]
        ([] ++ [])).map (fun s => s.safetyScore)) := by
  have hd : distancePointToLineSegment crimeOutside.lat crimeOutside.lng 0 0 0 0 =
      111 := by
    rw [show crimeOutside.lat = (1 / 1000 : ℝ) from rfl,
      show crimeOutside.lng = (0 : ℝ) from rfl, distancePointToLineSegment_degenerate]
    rw [show ((1 : ℝ) / 1000 - 0) * (1 / 1000 - 0) + (0 - 0) * (0 - 0) =
      (1 / 1000 : ℝ) ^ 2 by ring, Real.sqrt_sq (by norm_num)]
    norm_num
  have hlt : crimeInfluenceRadius <
      distancePointToLineSegment crimeOutside.lat crimeOutside.lng 0 0 0 0 := by
    rw [hd]
    norm_num [crimeInfluenceRadius]
  exact ⟨hlt, crime_beyond_radius_no_influence 0 0 0 0 [] [] crimeOutside hlt⟩

/-- C6 counterexample: a fresh severity-9 crime at exactly 100 m from a
degenerate segment (the claim includes "exactly 100 m").  Removing it
leaves the penalty at 0 but moves the safety score from 0 to 100, so the
segment's metrics are not unchanged. -/
theorem boundary_crime_changes_score :
    distancePointToLineSegment crimeBoundary.lat crimeBoundary.lng 0 0 0 0 = 100 ∧
    (createRouteSegments [((0 : ℝ), (0 : ℝ)), ((0 : ℝ), (0 : ℝ))]
      [crimeBoundary]).map (fun s => s.safetyScore) = [0] ∧
    (createRouteSegments [((0 : ℝ), (0 : ℝ)), ((0 : ℝ), (0 : ℝ))]
      ([] : List CrimePoint)).map (fun s => s.safetyScore) = [100] ∧
    (0 : ℝ) ≠ 100 := by
  have hd : distancePointToLineSegment crimeBoundary.lat crimeBoundary.lng 0 0 0 0 =
      100 := by
    rw [show crimeBoundary.lat = (1 / 1110 : ℝ) from rfl,
      show crimeBoundary.lng = (0 : ℝ) from rfl, distancePointToLineSegment_degenerate]
    rw [show ((1 : ℝ) / 1110 - 0) * (1 / 1110 - 0) + (0 - 0) * (0 - 0) =
      (1 / 1110 : ℝ) ^ 2 by ring, Real.sqrt_sq (by norm_num)]
    norm_num
  refine ⟨hd, ?_, ?_, by norm_num⟩
  · have hnear : getCrimesNearSegment 0 0 0 0 [crimeBoundary] =
        [⟨1 / 1110, 0, 9, "ASSAULT", 2, 100⟩] := by
      unfold getCrimesNearSegment
      rw [List.filterMap_cons]
      dsimp only
      rw [hd, if_pos (show (100 : ℝ) ≤ crimeInfluenceRadius by
        norm_num [crimeInfluenceRadius])]
      rfl
    rw [createRouteSegments_safetyScores]
    show [densitySegmentScore 0 0 0 0 [crimeBoundary]] = [0]
    unfold densitySegmentScore
    rw [hnear, calculateDistance_self]
    rw [if_neg (List.cons_ne_nil _ _)]
    simp only [List.length_cons, List.length_nil, List.filter_cons, List.filter_nil]
    rw [if_pos (by decide), if_pos (by simp only [decide_eq_true_eq]; norm_num)]
    norm_num [max_def, min_def]
  · rw [createRouteSegments_safetyScores]
    show [densitySegmentScore 0 0 0 0 ([] : List CrimePoint)] = [100]
    unfold densitySegmentScore
    simp [getCrimesNearSegment]
    norm_num

end CrimeRouter
